import Mathlib

/-!
Shallow embedding of the decision and risk engine of
`src/OKXBot_Workspace/src/okx_deepseek.py` (classes `RiskManager` and
`DeepSeekTrader`).  Prices, balances and quantities are modelled as
rationals, Python `None` becomes `Option`, and Python truthiness on
optional numbers is made explicit.  Logging, notification and the
concrete exchange API are side effects outside the engine and are not
modelled; the order lists produced below record exactly the
`create_market_order` calls the code would issue.
-/

namespace CryptoOracle

/-- Advisor signal as consumed by `DeepSeekTrader.execute_trade`:
the dict keys `signal`, `confidence`, `amount`, `reason`. -/
structure Signal where
  signal : String
  confidence : String
  amount : ℚ
  reason : String
  deriving DecidableEq, Repr

/-- Snapshot of an open contracts position as returned by
`DeepSeekTrader.get_current_position` (the `leverage` and `symbol`
fields of the returned dict are not used by any claim and are omitted). -/
structure Position where
  side : String
  size : ℚ
  entry_price : ℚ
  unrealized_pnl : ℚ
  deriving DecidableEq, Repr

/-- Raw position entry as returned by `exchange.fetch_positions`,
before `get_current_position` filters it (`contracts` is already the
float value, with `None` coerced to `0` as in the source). -/
structure RawPosition where
  symbol : String
  contracts : ℚ
  side : String
  entryPrice : ℚ
  unrealizedPnl : ℚ
  deriving DecidableEq, Repr

/-- One `create_market_order` call: side, quantity, and whether the
order carries `reduceOnly: True`. -/
structure TradeOrder where
  side : String
  qty : ℚ
  reduceOnly : Bool
  deriving DecidableEq, Repr

/-- ASCII upper-casing, modelling Python's `.upper()` on the
confidence strings involved (`low`/`medium`/`high` and friends). -/
def strUpper (s : String) : String := ⟨s.data.map Char.toUpper⟩

/-- The dict `confidence_levels = {'LOW': 1, 'MEDIUM': 2, 'HIGH': 3}`
from `execute_trade`; `none` models a key miss. -/
def confidence_levels (s : String) : Option ℕ :=
  if s = "LOW" then some 1
  else if s = "MEDIUM" then some 2
  else if s = "HIGH" then some 3
  else none

/-- `confidence_levels.get(signal_data.get('confidence', 'LOW').upper(), 1)`. -/
def confRankSignal (c : String) : ℕ := (confidence_levels (strUpper c)).getD 1

/-- `confidence_levels.get(self.min_confidence.upper(), 2)`. -/
def confRankMin (c : String) : ℕ := (confidence_levels (strUpper c)).getD 2

/-- Confidence filter of `execute_trade` (source lines 1179-1188): a
signal whose confidence ranks below the configured floor is forced to
`HOLD` and the explanation is appended to `reason` (the source suffix
is an f-string; its text is rendered here without the CJK characters,
preserving the appended structure `original ++ suffix`). -/
def confidenceFilter (min_confidence : String) (s : Signal) : Signal :=
  if confRankSignal s.confidence < confRankMin min_confidence then
    { s with signal := "HOLD",
             reason := s.reason ++ (" [confidence filter: " ++ s.confidence
                         ++ " < " ++ min_confidence ++ "]") }
  else s

/-- `min_profit_threshold = round_trip_fee + 0.0005` where
`round_trip_fee = taker_fee_rate * 2` (source lines 1207-1211). -/
def minProfitThreshold (taker_fee_rate : ℚ) : ℚ := taker_fee_rate * 2 + 5 / 10000

/-- The replacement `reason` written by the micro-profit interception
branch (source line 1220).  The source text is an f-string with CJK
text and interpolated percentages; it is rendered here as a fixed
string because no claim depends on the digits, only on the fact that
the assignment replaces (rather than appends to) the original reason. -/
def riskInterceptReason : String :=
  "[risk-control] unrealized pnl below round-trip fee threshold"

/-- Signed unrealized pnl fraction of an open position versus the
current price (source lines 1198-1203); entry price `0` yields `0`. -/
def pnlPct (current_price : ℚ) (p : Position) : ℚ :=
  if p.entry_price > 0 then
    if p.side = "long" then (current_price - p.entry_price) / p.entry_price
    else (p.entry_price - current_price) / p.entry_price
  else 0

/-- Fee-aware profit filter of `execute_trade` (source lines 1194-1226):
only a `SELL` signal with an open position is examined; a non-negative
pnl below the fee threshold is forced to `HOLD` with the reason
replaced; the low-margin band only logs a warning and mutates nothing,
as does every other outcome. -/
def profitFilter (taker_fee_rate current_price : ℚ) (pos : Option Position)
    (s : Signal) : Signal :=
  if s.signal = "SELL" then
    match pos with
    | none => s
    | some p =>
        if 0 ≤ pnlPct current_price p ∧
            pnlPct current_price p < minProfitThreshold taker_fee_rate then
          { s with signal := "HOLD", reason := riskInterceptReason }
        else s
  else s

/-- `DeepSeekTrader.get_current_position` (source lines 830-849): scan
the fetched positions for the trader's symbol with `contracts > 0`;
entries whose symbol matches but whose size is zero are skipped and
the scan continues. -/
def get_current_position (symbol : String) :
    List RawPosition → Option Position
  | [] => none
  | p :: rest =>
      if p.symbol = symbol ∧ p.contracts > 0 then
        some ⟨p.side, p.contracts, p.entryPrice, p.unrealizedPnl⟩
      else get_current_position symbol rest

/-- Python truthiness of an optional number (`None` and `0` are falsy). -/
def pyTruthy : Option ℚ → Bool
  | none => false
  | some x => decide (x ≠ 0)

/-- `allocated_quota` (source lines 1269-1276): a percentage of the
configured total when `allocation <= 1.0`, otherwise a fixed absolute
quota. -/
def allocatedQuota (initial_balance allocation : ℚ) : ℚ :=
  if allocation ≤ 1 then initial_balance * allocation else allocation

/-- `used_capital` (source lines 1280-1295): market value of the held
spot balance in cash mode; in margin mode the source deliberately
deducts nothing. -/
def usedCapital (trade_mode : String) (spot_balance current_price : ℚ) : ℚ :=
  if trade_mode = "cash" then spot_balance * current_price else 0

/-- `effective_balance` (source lines 1263-1311): with a configured
positive `initial_balance` the remaining quota
`max 0 (allocated_quota - used_capital)` caps the free balance
(`if remaining_quota < real_balance then remaining_quota else real_balance`);
otherwise the free balance is used as is. -/
def effectiveBalance (initial_balance : Option ℚ) (allocation : ℚ)
    (trade_mode : String) (spot_balance current_price real_balance : ℚ) : ℚ :=
  match initial_balance with
  | some ib =>
      if ib > 0 then
        let remaining_quota :=
          max 0 (allocatedQuota ib allocation -
                   usedCapital trade_mode spot_balance current_price)
        if remaining_quota < real_balance then remaining_quota else real_balance
      else real_balance
  | none => real_balance

/-- Directional `max_trade_limit` and the `is_closing_position` flag
(source lines 1313-1345).  For a margin-mode `SELL` the source's
long-position branch and its else branch assign the identical formula
with `is_closing_position = False`, so they are written once here. -/
def maxTradeLimit (signal trade_mode : String)
    (effective_balance leverage current_price spot_balance : ℚ) : ℚ × Bool :=
  if signal = "BUY" then
    if trade_mode = "cash" then
      (effective_balance * (99 / 100) / current_price, false)
    else
      (effective_balance * leverage * (99 / 100) / current_price, false)
  else if signal = "SELL" then
    if trade_mode = "cash" then (spot_balance, true)
    else (effective_balance * leverage * (99 / 100) / current_price, false)
  else (0, false)

/-- The three-way minimum of `execute_trade` (source lines 1352-1371):
closing trades and HIGH-confidence trades ignore `config_amount`. -/
def rawTradeAmount (is_closing : Bool) (confidence : String)
    (config_amount ai_suggest_amount max_trade_limit : ℚ) : ℚ :=
  if is_closing then min ai_suggest_amount max_trade_limit
  else if strUpper confidence = "HIGH" then min ai_suggest_amount max_trade_limit
  else min config_amount (min ai_suggest_amount max_trade_limit)

/-- `exchange.amount_to_precision` modelled as truncation to the
instrument's amount step (ccxt truncates rather than rounds). -/
def amount_to_precision (step x : ℚ) : ℚ := ((x / step).floor : ℚ) * step

/-- Minimum-notional adjustment (source lines 1406-1419): a `BUY` whose
notional is below `min_cost` is raised to `(min_cost / price) * 1.05`
(then re-truncated) provided the account limit can cover `min_cost`;
otherwise the trade is aborted. -/
def minCostAdjust (signal : String) (min_cost : Option ℚ)
    (step current_price max_trade_limit t : ℚ) : Option ℚ :=
  match min_cost with
  | none => some t
  | some c =>
      if t * current_price < c then
        if max_trade_limit * current_price ≥ c ∧ signal = "BUY" then
          some (amount_to_precision step (c / current_price * (105 / 100)))
        else none
      else some t

/-- Post-processing of the sized amount (source lines 1373-1439), on
the non-exception path: minimum-quantity auto-raise (BUY only, if the
limit allows), precision truncation, re-check of the minimum quantity,
minimum-notional adjustment, and the final `trade_amount <= 0` abort.
`none` models the `return` paths that send no order. -/
def postProcess (signal : String) (min_amount min_cost : Option ℚ)
    (step current_price max_trade_limit t0 : ℚ) : Option ℚ :=
  let s1 : Option ℚ :=
    match min_amount with
    | some m =>
        if t0 < m then
          if max_trade_limit ≥ m ∧ signal = "BUY" then some m else none
        else some t0
    | none => some t0
  match s1 with
  | none => none
  | some t1 =>
      let t2 := amount_to_precision step t1
      if (match min_amount with | some m => decide (t2 < m) | none => false) then none
      else
        match minCostAdjust signal min_cost step current_price max_trade_limit t2 with
        | none => none
        | some t3 => if t3 ≤ 0 then none else some t3

/-- Inputs of one `execute_trade` invocation that the engine reads from
configuration, the exchange, and the trader's state. -/
structure TradeEnv where
  min_confidence : String
  taker_fee_rate : ℚ
  current_price : ℚ
  position : Option Position
  test_mode : Bool
  realtime_price : ℚ
  max_slippage : ℚ
  config_amount : ℚ
  real_balance : ℚ
  initial_balance : Option ℚ
  allocation : ℚ
  trade_mode : String
  leverage : ℚ
  spot_balance : ℚ
  min_amount : Option ℚ
  min_cost : Option ℚ
  amount_step : ℚ
  coin_balance : ℚ
  deriving Repr

/-- The full sizing logic of `execute_trade` (source lines 1252-1439)
for a gated signal: effective balance, directional limit, three-way
minimum, and post-processing; `none` means no order is sent. -/
def sizeTrade (env : TradeEnv) (signal confidence : String)
    (ai_suggest_amount : ℚ) : Option ℚ :=
  let eff := effectiveBalance env.initial_balance env.allocation env.trade_mode
      env.spot_balance env.current_price env.real_balance
  let ml := maxTradeLimit signal env.trade_mode eff env.leverage
      env.current_price env.spot_balance
  postProcess signal env.min_amount env.min_cost env.amount_step
    env.current_price ml.1
    (rawTradeAmount ml.2 confidence env.config_amount ai_suggest_amount ml.1)

/-- Spot-mode order placement (source lines 1447-1472): a sell is
issued only when the freshly fetched coin balance covers it. -/
def cashOrders (signal : String) (coin_balance trade_amount : ℚ) :
    List TradeOrder :=
  if signal = "BUY" then [⟨"buy", trade_amount, false⟩]
  else if signal = "SELL" then
    if coin_balance ≥ trade_amount then [⟨"sell", trade_amount, false⟩] else []
  else []

/-- Contract-mode order placement (source lines 1474-1507): an opposing
open position is first closed reduce-only with its entire size, then
the sized order is issued (the source's pyramiding condition
`not position or side == 'short' or side == 'long'` is always true, so
the entry order is unconditional for BUY/SELL). -/
def contractOrders (signal : String) (pos : Option Position)
    (trade_amount : ℚ) : List TradeOrder :=
  if signal = "BUY" then
    (match pos with
     | some p => if p.side = "short" then [⟨"buy", p.size, true⟩] else []
     | none => []) ++ [⟨"buy", trade_amount, false⟩]
  else if signal = "SELL" then
    (match pos with
     | some p => if p.side = "long" then [⟨"sell", p.size, true⟩] else []
     | none => []) ++ [⟨"sell", trade_amount, false⟩]
  else []

/-- Order placement dispatch on the trade mode. -/
def placeOrders (env : TradeEnv) (signal : String) (trade_amount : ℚ) :
    List TradeOrder :=
  if env.trade_mode = "cash" then cashOrders signal env.coin_balance trade_amount
  else contractOrders signal env.position trade_amount

/-- Slippage guard (source lines 1232-1250), non-exception path: abort
when the live price deviates from the analysis price by more than the
configured percentage. -/
def slippageExceeded (env : TradeEnv) : Prop :=
  |env.realtime_price - env.current_price| / env.current_price * 100
    > env.max_slippage

instance (env : TradeEnv) : Decidable (slippageExceeded env) := by
  unfold slippageExceeded; infer_instance

/-- `DeepSeekTrader.execute_trade` end to end (source lines 1154-1507):
confidence filter, early return on `HOLD`, profit filter (which does
not early-return), test-mode and slippage guards, sizing, and order
placement.  The result is the list of market orders issued. -/
def execute_trade (env : TradeEnv) (sig : Signal) : List TradeOrder :=
  let s1 := confidenceFilter env.min_confidence sig
  if s1.signal = "HOLD" then []
  else
    let s2 := profitFilter env.taker_fee_rate env.current_price env.position s1
    if env.test_mode then []
    else if slippageExceeded env then []
    else
      match sizeTrade env s2.signal s2.confidence s2.amount with
      | none => []
      | some t => placeOrders env s2.signal t

/-- `RiskManager.initialize_baseline` calibration core (source lines
481-507): `real_total_equity = current_usdt_equity + total_position_value`;
with a configured positive initial balance, a relative deviation above
10 percent resets the baseline to the real equity, otherwise a missing
(falsy) persisted baseline is set to the configured balance and an
existing one is kept; without a configured balance a missing baseline
is set to the real equity.  The second component records that
`save_state` persists the baseline unconditionally at the end. -/
def init_baseline (initial_balance smart_baseline : Option ℚ)
    (current_usdt_equity total_position_value : ℚ) : Option ℚ × Bool :=
  let real_total_equity := current_usdt_equity + total_position_value
  let nb : Option ℚ :=
    match initial_balance with
    | some ib =>
        if ib > 0 then
          if |real_total_equity - ib| / ib * 100 > 10 then
            some real_total_equity
          else if pyTruthy smart_baseline then smart_baseline else some ib
        else if pyTruthy smart_baseline then smart_baseline
        else some real_total_equity
    | none =>
        if pyTruthy smart_baseline then smart_baseline
        else some real_total_equity
  (nb, true)

/-- Which configured threshold fired the kill switch. -/
inductive HaltReason where
  | profitAbs
  | profitPct
  | lossAbs
  | lossPct
  deriving DecidableEq, Repr

/-- Threshold evaluation of `RiskManager.check` (source lines 345-383):
take-profit absolute, then take-profit percentage, and only if neither
fired (the process exits on a take-profit) stop-loss absolute, then
stop-loss percentage.  A falsy (unset or zero) threshold never fires. -/
def evalThresholds (max_profit max_profit_pct max_loss max_loss_pct : Option ℚ)
    (pnl pnl_pct : ℚ) : Option HaltReason :=
  if pyTruthy max_profit ∧ pnl ≥ max_profit.getD 0 then some .profitAbs
  else if pyTruthy max_profit_pct ∧ pnl_pct ≥ max_profit_pct.getD 0 * 100 then
    some .profitPct
  else if pyTruthy max_loss ∧ pnl ≤ -(max_loss.getD 0) then some .lossAbs
  else if pyTruthy max_loss_pct ∧ pnl_pct ≤ -(max_loss_pct.getD 0 * 100) then
    some .lossPct
  else none

/-- One appended row of `pnl_history.csv` (`record_pnl_to_csv`). -/
structure LedgerRow where
  total_equity : ℚ
  pnl : ℚ
  pnl_pct : ℚ
  deriving DecidableEq, Repr

/-- The mutable state `RiskManager.check` touches: the smart baseline
and the append-only ledger. -/
structure RiskState where
  smart_baseline : Option ℚ
  ledger : List LedgerRow
  deriving DecidableEq, Repr

/-- Risk-control configuration (`risk_config` of `RiskManager.__init__`). -/
structure RiskConfig where
  initial_balance : Option ℚ
  max_profit : Option ℚ
  max_profit_pct : Option ℚ
  max_loss : Option ℚ
  max_loss_pct : Option ℚ
  deriving Repr

/-- `RiskManager.check` (source lines 270-383) as a state transition.
`total_equity` is the fetched USDT equity, already `0` when no USDT
field was found; `spot_value` is the summed market value of spot
holdings added in the monitoring loop and `init_position_value` the
corresponding sum computed inside `initialize_baseline`.  A
non-positive equity returns before any state is touched; a still-unset
or non-positive baseline returns after initialization without logging;
otherwise a ledger row is appended and the thresholds are evaluated,
a `some` outcome standing for the flatten-notify-exit halt. -/
def riskCheck (cfg : RiskConfig) (st : RiskState)
    (total_equity spot_value init_position_value : ℚ) :
    RiskState × Option HaltReason :=
  if total_equity ≤ 0 then (st, none)
  else
    let bl : Option ℚ :=
      match st.smart_baseline with
      | none =>
          (init_baseline cfg.initial_balance st.smart_baseline total_equity
            init_position_value).1
      | some b => some b
    match bl with
    | none => ({ st with smart_baseline := bl }, none)
    | some base =>
        if base ≤ 0 then ({ st with smart_baseline := bl }, none)
        else
          let current_total_value := total_equity + spot_value
          let pnl := current_total_value - base
          let pct := pnl / base * 100
          ({ smart_baseline := bl,
             ledger := st.ledger ++ [⟨current_total_value, pnl, pct⟩] },
           evalThresholds cfg.max_profit cfg.max_profit_pct cfg.max_loss
             cfg.max_loss_pct pnl pct)

/-! ### Helper lemmas -/

/-- Truncation to the amount step never increases the quantity. -/
theorem amount_to_precision_le {step : ℚ} (x : ℚ) (h : 0 < step) :
    amount_to_precision step x ≤ x := by
  have h1 : (((x / step).floor : ℤ) : ℚ) ≤ x / step := Rat.le_floor.mp le_rfl
  have h2 := mul_le_mul_of_nonneg_right h1 h.le
  rwa [div_mul_cancel₀ x (ne_of_gt h)] at h2

/-- The effective balance is nonnegative whenever the free balance is. -/
theorem effectiveBalance_nonneg (ib : Option ℚ) (al : ℚ) (tm : String)
    (spot price real : ℚ) (hr : 0 ≤ real) :
    0 ≤ effectiveBalance ib al tm spot price real := by
  unfold effectiveBalance
  cases ib with
  | none => exact hr
  | some b =>
      dsimp only
      split_ifs with h1 h2
      · exact le_max_left _ _
      · exact hr
      · exact hr

/-- The directional trade limit is nonnegative under sign assumptions
on its inputs. -/
theorem maxTradeLimit_nonneg (signal tm : String) (eff lev price spot : ℚ)
    (heff : 0 ≤ eff) (hl : 0 ≤ lev) (hp : 0 < price) (hb : 0 ≤ spot) :
    0 ≤ (maxTradeLimit signal tm eff lev price spot).1 := by
  unfold maxTradeLimit
  split_ifs <;> simp only
  · exact div_nonneg (by positivity) hp.le
  · exact div_nonneg (by positivity) hp.le
  · exact hb
  · exact div_nonneg (by positivity) hp.le
  · exact le_refl 0

/-- The three-way minimum never exceeds the directional limit. -/
theorem rawTradeAmount_le (cl : Bool) (conf : String) (cfg ai mtl : ℚ) :
    rawTradeAmount cl conf cfg ai mtl ≤ mtl := by
  unfold rawTradeAmount
  split_ifs
  · exact min_le_right _ _
  · exact min_le_right _ _
  · exact (min_le_right _ _).trans (min_le_right _ _)

/-- Post-processing bound helper. -/
theorem minCostAdjust_le (signal : String) (mc : Option ℚ)
    (step price mtl t2 t3 : ℚ) (hs : 0 < step) (hp : 0 < price)
    (hm : 0 ≤ mtl) (ht2 : t2 ≤ mtl)
    (h : minCostAdjust signal mc step price mtl t2 = some t3) :
    t3 ≤ mtl * (21 / 20) ∧ (mc = none → t3 ≤ mtl) := by
  have hmtl : mtl ≤ mtl * (21 / 20) := le_mul_of_one_le_right hm (by norm_num)
  cases mc with
  | none =>
      simp only [minCostAdjust] at h
      have := Option.some.inj h
      exact ⟨(this ▸ ht2).trans hmtl, fun _ => this ▸ ht2⟩
  | some c =>
      simp only [minCostAdjust] at h
      split_ifs at h with h1 h2
      · have h3 := Option.some.inj h
        have h4 : amount_to_precision step (c / price * (105 / 100))
            ≤ c / price * (105 / 100) := amount_to_precision_le _ hs
        have hcp : c / price ≤ mtl := (div_le_iff₀ hp).mpr (by linarith [h2.1])
        have h5 : c / price * (105 / 100) ≤ mtl * (21 / 20) := by
          calc c / price * (105 / 100) ≤ mtl * (105 / 100) :=
                mul_le_mul_of_nonneg_right hcp (by norm_num)
            _ = mtl * (21 / 20) := by norm_num
        exact ⟨h3 ▸ (h4.trans h5), fun hx => by cases hx⟩
      · have h3 := Option.some.inj h
        exact ⟨(h3 ▸ ht2).trans hmtl, fun hx => by cases hx⟩

/-- Post-processing keeps the final amount within five percent of the
directional limit, and within the limit itself when the venue has no
minimum-notional rule. -/
theorem postProcess_le (signal : String) (ma mc : Option ℚ)
    (step price mtl t0 t : ℚ) (hs : 0 < step) (hp : 0 < price)
    (hm : 0 ≤ mtl) (ht0 : t0 ≤ mtl)
    (h : postProcess signal ma mc step price mtl t0 = some t) :
    t ≤ mtl * (21 / 20) ∧ (mc = none → t ≤ mtl) := by
  unfold postProcess at h
  have htail : ∀ t1 : ℚ, t1 ≤ mtl →
      (match minCostAdjust signal mc step price mtl
          (amount_to_precision step t1) with
        | none => none
        | some t3 => if t3 ≤ 0 then none else some t3) = some t →
      t ≤ mtl * (21 / 20) ∧ (mc = none → t ≤ mtl) := by
    intro t1 ht1 hrest
    have ht2 : amount_to_precision step t1 ≤ mtl :=
      (amount_to_precision_le t1 hs).trans ht1
    rcases hadj : minCostAdjust signal mc step price mtl
        (amount_to_precision step t1) with _ | t3
    · rw [hadj] at hrest; cases hrest
    · rw [hadj] at hrest
      dsimp only at hrest
      split_ifs at hrest
      have := Option.some.inj hrest
      subst this
      exact minCostAdjust_le signal mc step price mtl _ t3 hs hp hm ht2 hadj
  cases ma with
  | none =>
      dsimp only at h
      simp only [Bool.false_eq_true, if_false] at h
      exact htail t0 ht0 h
  | some m =>
      dsimp only at h
      split_ifs at h with h1 h2
      · dsimp only at h
        split_ifs at h
        exact htail m h2.1 h
      · dsimp only at h
        split_ifs at h
        exact htail t0 ht0 h

/-- C1 (amended): the sized trade amount, when an order is sent, is at
most 105 percent of the directional account limit, and at most the
limit itself whenever the venue has no minimum-notional rule. -/
theorem c1_trade_amount_bounded (env : TradeEnv) (signal conf : String)
    (ai t : ℚ) (hp : 0 < env.current_price) (hs : 0 < env.amount_step)
    (hr : 0 ≤ env.real_balance) (hb : 0 ≤ env.spot_balance)
    (hl : 0 ≤ env.leverage)
    (h : sizeTrade env signal conf ai = some t) :
    t ≤ (maxTradeLimit signal env.trade_mode
          (effectiveBalance env.initial_balance env.allocation env.trade_mode
            env.spot_balance env.current_price env.real_balance)
          env.leverage env.current_price env.spot_balance).1 * (21 / 20)
    ∧ (env.min_cost = none →
        t ≤ (maxTradeLimit signal env.trade_mode
              (effectiveBalance env.initial_balance env.allocation env.trade_mode
                env.spot_balance env.current_price env.real_balance)
              env.leverage env.current_price env.spot_balance).1) := by
  unfold sizeTrade at h
  dsimp only at h
  have heff : 0 ≤ effectiveBalance env.initial_balance env.allocation
      env.trade_mode env.spot_balance env.current_price env.real_balance :=
    effectiveBalance_nonneg _ _ _ _ _ _ hr
  have hm := maxTradeLimit_nonneg signal env.trade_mode _ env.leverage
    env.current_price env.spot_balance heff hl hp hb
  exact postProcess_le signal env.min_amount env.min_cost env.amount_step
    env.current_price _ _ t hs hp hm (rawTradeAmount_le _ _ _ _ _) h

/-- C1 counterexample: with a free balance supporting `max_trade_limit = 5`,
`min_cost = 5`, price `1` and an AI suggestion of `4.9`, the
minimum-notional adjustment raises the final amount to `5.2`, strictly
above the directional limit. -/
theorem c1_counterexample :
    sizeTrade
        ⟨"MEDIUM", 1/1000, 1, none, false, 1, 100, 100, 500/99, none, 1,
         "cash", 1, 0, none, some 5, 1/10, 0⟩
        "BUY" "HIGH" (49/10) = some (26/5)
    ∧ (maxTradeLimit "BUY" "cash"
        (effectiveBalance none 1 "cash" 0 1 (500/99)) 1 1 0).1 = 5
    ∧ ¬((26/5 : ℚ) ≤ 5) := by
  refine ⟨?_, by norm_num [maxTradeLimit, effectiveBalance], by norm_num⟩
  norm_num [sizeTrade, effectiveBalance, maxTradeLimit, rawTradeAmount,
    postProcess, minCostAdjust, amount_to_precision, strUpper,
    Rat.floor_def']

/-- Witness for the amended C1 bound at a concrete sized trade. -/
theorem c1_trade_amount_bounded_witness :
    (3 : ℚ) ≤ (maxTradeLimit "BUY" "cash"
        (effectiveBalance none 1 "cash" 0 1 100) 1 1 0).1 * (21 / 20)
    ∧ ((none : Option ℚ) = none →
        (3 : ℚ) ≤ (maxTradeLimit "BUY" "cash"
          (effectiveBalance none 1 "cash" 0 1 100) 1 1 0).1) :=
  c1_trade_amount_bounded
    ⟨"MEDIUM", 1/1000, 1, none, false, 1, 100, 5, 100, none, 1,
     "cash", 1, 0, none, none, 1/10, 0⟩
    "BUY" "HIGH" 3 3 (by norm_num) (by norm_num) (by norm_num) (by norm_num)
    (by norm_num)
    (by norm_num [sizeTrade, effectiveBalance, maxTradeLimit, rawTradeAmount,
      postProcess, minCostAdjust, amount_to_precision, strUpper,
      Rat.floor_def'])

/-- C2: closing trades are never reduced by the configured capital
quota.  First, the entire spot-mode `SELL` sizing is invariant under
the configured amount, the configured initial balance, the allocation
and the free USDT balance; second, the three-way minimum for a
spot-mode `SELL` is exactly `min ai_amount spot_balance`; third and
fourth, the reduce-only close leg of a reversal (contract-mode `SELL`
while long, `BUY` while short) always carries the entire existing
position size, whatever the sized amount of the new leg. -/
theorem c2_closing_not_quota_limited :
    (∀ (e : TradeEnv) (cfgA al rb : ℚ) (ibo : Option ℚ) (conf : String)
        (ai : ℚ), e.trade_mode = "cash" →
        sizeTrade { e with config_amount := cfgA, initial_balance := ibo,
                            allocation := al, real_balance := rb }
            "SELL" conf ai
          = sizeTrade e "SELL" conf ai)
    ∧ (∀ (eff lev price spot cfgA ai : ℚ) (conf : String),
        rawTradeAmount (maxTradeLimit "SELL" "cash" eff lev price spot).2
            conf cfgA ai (maxTradeLimit "SELL" "cash" eff lev price spot).1
          = min ai spot)
    ∧ (∀ (p : Position) (ta : ℚ), p.side = "long" →
        contractOrders "SELL" (some p) ta
          = [⟨"sell", p.size, true⟩, ⟨"sell", ta, false⟩])
    ∧ (∀ (p : Position) (ta : ℚ), p.side = "short" →
        contractOrders "BUY" (some p) ta
          = [⟨"buy", p.size, true⟩, ⟨"buy", ta, false⟩]) := by
  refine ⟨?_, ?_, ?_, ?_⟩
  · intro e cfgA al rb ibo conf ai hmode
    simp [sizeTrade, maxTradeLimit, rawTradeAmount, hmode]
  · intro eff lev price spot cfgA ai conf
    simp [maxTradeLimit, rawTradeAmount]
  · intro p ta hside
    simp [contractOrders, hside]
  · intro p ta hside
    simp [contractOrders, hside]

/-- Witness for C2 at concrete inputs. -/
theorem c2_closing_not_quota_limited_witness :
    sizeTrade { (⟨"MEDIUM", 1/1000, 2, none, false, 2, 100, 5, 100,
                  some 100, 1, "cash", 1, 20, none, none, 1/10, 20⟩ : TradeEnv)
                with config_amount := (7 : ℚ), initial_balance := some 50,
                     allocation := (1/2 : ℚ), real_balance := (3 : ℚ) }
        "SELL" "LOW" 4
      = sizeTrade
          ⟨"MEDIUM", 1/1000, 2, none, false, 2, 100, 5, 100,
           some 100, 1, "cash", 1, 20, none, none, 1/10, 20⟩ "SELL" "LOW" 4
    ∧ contractOrders "SELL" (some ⟨"long", 6, 10, 0⟩) 2
        = [⟨"sell", 6, true⟩, ⟨"sell", 2, false⟩] :=
  ⟨c2_closing_not_quota_limited.1 _ 7 (1/2) 3 (some 50) "LOW" 4 rfl,
   c2_closing_not_quota_limited.2.2.1 ⟨"long", 6, 10, 0⟩ 2 rfl⟩

/-- C3: a signal whose confidence ranks strictly below the configured
minimum (under LOW=1, MEDIUM=2, HIGH=3 with the source's `dict.get`
defaults) is forced to `HOLD` by the confidence filter, and the whole
`execute_trade` invocation places no order. -/
theorem c3_confidence_forces_hold (env : TradeEnv) (sig : Signal)
    (h : confRankSignal sig.confidence < confRankMin env.min_confidence) :
    (confidenceFilter env.min_confidence sig).signal = "HOLD"
    ∧ execute_trade env sig = [] := by
  constructor
  · unfold confidenceFilter
    rw [if_pos h]
  · unfold execute_trade
    have h1 : (confidenceFilter env.min_confidence sig).signal = "HOLD" := by
      unfold confidenceFilter; rw [if_pos h]
    simp [h1]

/-- Witness for C3: a LOW-confidence signal under a MEDIUM floor. -/
theorem c3_confidence_forces_hold_witness :
    (confidenceFilter "MEDIUM" ⟨"BUY", "LOW", 1, "r"⟩).signal = "HOLD"
    ∧ execute_trade
        ⟨"MEDIUM", 1/1000, 1, none, false, 1, 100, 5, 100, none, 1,
         "cash", 1, 0, none, none, 1/10, 0⟩ ⟨"BUY", "LOW", 1, "r"⟩ = [] :=
  c3_confidence_forces_hold
    ⟨"MEDIUM", 1/1000, 1, none, false, 1, 100, 5, 100, none, 1,
     "cash", 1, 0, none, none, 1/10, 0⟩
    ⟨"BUY", "LOW", 1, "r"⟩ (by decide)

/-- C4: with `taker_fee_rate = 0.001` the fee gate threshold is
`0.0025`; against a long position entered at `10000`, a `SELL` at
price `10015` (unrealized profit `0.15` percent) is forced to `HOLD`,
while at price `10030` (profit `0.30` percent) the signal passes
through completely unmodified. -/
theorem c4_fee_gate_thresholds (amt : ℚ) (conf r : String) :
    minProfitThreshold (1/1000) = 25/10000
    ∧ (profitFilter (1/1000) 10015 (some ⟨"long", 1, 10000, 0⟩)
        ⟨"SELL", conf, amt, r⟩).signal = "HOLD"
    ∧ profitFilter (1/1000) 10030 (some ⟨"long", 1, 10000, 0⟩)
        ⟨"SELL", conf, amt, r⟩ = ⟨"SELL", conf, amt, r⟩ := by
  refine ⟨by norm_num [minProfitThreshold], ?_, ?_⟩ <;>
    norm_num [profitFilter, pnlPct, minProfitThreshold]

/-- C5: the effective balance equals
`min free_balance (max 0 (quota - used_capital))`, and on the spec's
end-to-end scenario (quota 100, holding worth 40, free balance 200,
price 2) it is `60`, giving a spot-buy limit of `29.7`. -/
theorem c5_effective_balance (lev : ℚ) :
    (∀ (ib al : ℚ) (tm : String) (spot price real : ℚ), 0 < ib →
        effectiveBalance (some ib) al tm spot price real
          = min real (max 0 (allocatedQuota ib al -
              usedCapital tm spot price)))
    ∧ effectiveBalance (some 100) 1 "cash" 20 2 200 = 60
    ∧ (maxTradeLimit "BUY" "cash" 60 lev 2 20).1 = 297/10 := by
  refine ⟨?_, by norm_num [effectiveBalance, allocatedQuota, usedCapital],
    by norm_num [maxTradeLimit]⟩
  intro ib al tm spot price real hib
  unfold effectiveBalance
  dsimp only
  rw [if_pos hib]
  rcases lt_or_le (max 0 (allocatedQuota ib al - usedCapital tm spot price))
      real with h | h
  · rw [if_pos h, min_eq_right h.le]
  · rw [if_neg (not_lt.mpr h), min_eq_left h]

/-- Witness for C5 at the spec's concrete scenario. -/
theorem c5_effective_balance_witness :
    effectiveBalance (some 100) 1 "cash" 20 2 200
      = min 200 (max 0 (allocatedQuota 100 1 - usedCapital "cash" 20 2)) :=
  (c5_effective_balance 1).1 100 1 "cash" 20 2 200 (by norm_num)

/-- C6: baseline calibration with configured capital 1000.  A real
total equity of 1200 (20 percent deviation) resets the baseline to
1200 even over a persisted value; at 1050 (5 percent deviation) a
missing baseline is set to the configured 1000 while a persisted
non-zero value is kept; and the baseline is persisted at the end of
every initialization. -/
theorem c6_baseline_calibration :
    (∀ (b : Option ℚ) (u v : ℚ), u + v = 1200 →
        (init_baseline (some 1000) b u v).1 = some 1200)
    ∧ (∀ (u v : ℚ), u + v = 1050 →
        (init_baseline (some 1000) none u v).1 = some 1000)
    ∧ (∀ (w u v : ℚ), w ≠ 0 → u + v = 1050 →
        (init_baseline (some 1000) (some w) u v).1 = some w)
    ∧ ∀ (ib b : Option ℚ) (u v : ℚ), (init_baseline ib b u v).2 = true := by
  refine ⟨?_, ?_, ?_, fun ib b u v => rfl⟩
  · intro b u v huv
    unfold init_baseline
    dsimp only
    rw [huv]
    rw [if_pos (by norm_num), if_pos (by norm_num)]
  · intro u v huv
    unfold init_baseline
    dsimp only
    rw [huv]
    rw [if_pos (by norm_num), if_neg (by norm_num)]
    simp [pyTruthy]
  · intro w u v hw huv
    unfold init_baseline
    dsimp only
    rw [huv]
    rw [if_pos (by norm_num), if_neg (by norm_num)]
    simp [pyTruthy, hw]

/-- Witness for C6 at concrete equities. -/
theorem c6_baseline_calibration_witness :
    (init_baseline (some 1000) (some 980) 1200 0).1 = some 1200
    ∧ (init_baseline (some 1000) none 1050 0).1 = some 1000
    ∧ (init_baseline (some 1000) (some 980) 1050 0).1 = some 980 :=
  ⟨c6_baseline_calibration.1 (some 980) 1200 0 (by norm_num),
   c6_baseline_calibration.2.1 1050 0 (by norm_num),
   c6_baseline_calibration.2.2.1 980 1050 0 (by norm_num) (by norm_num)⟩

/-- C7: the kill-switch outcome is fully characterized by the source's
evaluation order — take-profit absolute, take-profit percentage,
stop-loss absolute, stop-loss percentage — each condition firing only
when every earlier one failed (so at most one halt per cycle, take
profit shadowing stop loss and absolute shadowing percentage), and a
falsy (unset) threshold never fires on its own account. -/
theorem c7_threshold_order (mp mpp ml mlp : Option ℚ) (pnl pct : ℚ) :
    (evalThresholds mp mpp ml mlp pnl pct = some .profitAbs ↔
       (pyTruthy mp ∧ pnl ≥ mp.getD 0))
    ∧ (evalThresholds mp mpp ml mlp pnl pct = some .profitPct ↔
       (¬(pyTruthy mp ∧ pnl ≥ mp.getD 0)
         ∧ (pyTruthy mpp ∧ pct ≥ mpp.getD 0 * 100)))
    ∧ (evalThresholds mp mpp ml mlp pnl pct = some .lossAbs ↔
       (¬(pyTruthy mp ∧ pnl ≥ mp.getD 0)
         ∧ ¬(pyTruthy mpp ∧ pct ≥ mpp.getD 0 * 100)
         ∧ (pyTruthy ml ∧ pnl ≤ -(ml.getD 0))))
    ∧ (evalThresholds mp mpp ml mlp pnl pct = some .lossPct ↔
       (¬(pyTruthy mp ∧ pnl ≥ mp.getD 0)
         ∧ ¬(pyTruthy mpp ∧ pct ≥ mpp.getD 0 * 100)
         ∧ ¬(pyTruthy ml ∧ pnl ≤ -(ml.getD 0))
         ∧ (pyTruthy mlp ∧ pct ≤ -(mlp.getD 0 * 100))))
    ∧ (¬pyTruthy mp →
        evalThresholds mp mpp ml mlp pnl pct ≠ some .profitAbs)
    ∧ (¬pyTruthy mpp →
        evalThresholds mp mpp ml mlp pnl pct ≠ some .profitPct)
    ∧ (¬pyTruthy ml →
        evalThresholds mp mpp ml mlp pnl pct ≠ some .lossAbs)
    ∧ (¬pyTruthy mlp →
        evalThresholds mp mpp ml mlp pnl pct ≠ some .lossPct) := by
  unfold evalThresholds
  split_ifs with h1 h2 h3 h4 <;> simp_all

/-- Witness for C7: an absolute take-profit firing alone. -/
theorem c7_threshold_order_witness :
    evalThresholds (some 5) none none none 6 0 = some .profitAbs :=
  (c7_threshold_order (some 5) none none none 6 0).1.mpr
    ⟨by decide, by norm_num⟩

/-- C8: a non-positive fetched USDT equity short-circuits
`RiskManager.check` with no state change at all: the baseline is not
initialized or modified, no ledger row is appended, and no threshold
is evaluated (no halt). -/
theorem c8_zero_equity_no_state_change (cfg : RiskConfig) (st : RiskState)
    (e sv ipv : ℚ) (h : e ≤ 0) :
    riskCheck cfg st e sv ipv = (st, none) := by
  unfold riskCheck
  rw [if_pos h]

/-- Witness for C8 with a zero fetched equity. -/
theorem c8_zero_equity_no_state_change_witness :
    riskCheck ⟨some 1000, some 50, none, some 30, none⟩ ⟨some 5, []⟩ 0 3 4
      = (⟨some 5, []⟩, none) :=
  c8_zero_equity_no_state_change _ _ _ _ _ (by norm_num)

/-- C9 counterexample: when the micro-profit interception fires, the
resulting reason is not the original reason with a suffix appended —
the source assigns (rather than appends) a fresh message. -/
theorem c9_counterexample :
    ¬ ∃ t : String,
        (profitFilter (1/1000) 10015 (some ⟨"long", 1, 10000, 0⟩)
            ⟨"SELL", "HIGH", 1, "orig"⟩).reason = "orig" ++ t := by
  rintro ⟨t, h⟩
  norm_num [profitFilter, pnlPct, minProfitThreshold,
    riskInterceptReason] at h
  have h2 := congrArg String.data h
  simp [String.data_append] at h2

/-- C9 (amended): the confidence filter only ever appends to the
original reason, but the fee-aware profit filter, whenever it forces
`HOLD`, replaces the reason wholesale with the risk-interception
message (everything else in the signal is preserved). -/
theorem c9_append_vs_replace :
    (∀ (mc : String) (s : Signal), ∃ t : String,
        (confidenceFilter mc s).reason = s.reason ++ t)
    ∧ ∀ (fee price : ℚ) (pos : Option Position) (s : Signal),
        profitFilter fee price pos s = s ∨
        ((profitFilter fee price pos s).signal = "HOLD"
          ∧ (profitFilter fee price pos s).reason = riskInterceptReason
          ∧ (profitFilter fee price pos s).amount = s.amount
          ∧ (profitFilter fee price pos s).confidence = s.confidence) := by
  constructor
  · intro mc s
    unfold confidenceFilter
    split_ifs
    · exact ⟨_, rfl⟩
    · exact ⟨"", by simp⟩
  · intro fee price pos s
    unfold profitFilter
    split_ifs with h1
    · cases pos with
      | none => exact Or.inl rfl
      | some p =>
          dsimp only
          split_ifs with h2
          · exact Or.inr ⟨rfl, rfl, rfl, rfl⟩
          · exact Or.inl rfl
    · exact Or.inl rfl

/-- C10: `get_current_position` reports nothing when no fetched entry
matches the symbol with positive contracts (in particular spot
holdings never appear in `fetch_positions`), and with no position the
fee-aware profit filter leaves every signal untouched — a spot-mode
`SELL` is never forced to `HOLD` by the profitability check. -/
theorem c10_no_position_skips_profit_filter :
    (∀ (sym : String) (ps : List RawPosition),
        (∀ p ∈ ps, ¬(p.symbol = sym ∧ 0 < p.contracts)) →
        get_current_position sym ps = none)
    ∧ ∀ (fee price : ℚ) (s : Signal), profitFilter fee price none s = s := by
  constructor
  · intro sym ps h
    induction ps with
    | nil => rfl
    | cons p rest ih =>
        unfold get_current_position
        rw [if_neg (h p (List.mem_cons_self p rest))]
        exact ih fun q hq => h q (List.mem_cons_of_mem p hq)
  · intro fee price s
    unfold profitFilter
    split_ifs <;> rfl

/-- Witness for C10: a zero-contract entry for the symbol is skipped
and the filter passes a SELL through. -/
theorem c10_no_position_skips_profit_filter_witness :
    get_current_position "BTC/USDT"
        [⟨"ETH/USDT", 5, "long", 1, 0⟩, ⟨"BTC/USDT", 0, "long", 1, 0⟩] = none
    ∧ profitFilter (1/1000) 100 none ⟨"SELL", "HIGH", 1, "r"⟩
        = ⟨"SELL", "HIGH", 1, "r"⟩ :=
  ⟨c10_no_position_skips_profit_filter.1 "BTC/USDT" _ (by decide),
   c10_no_position_skips_profit_filter.2 (1/1000) 100 ⟨"SELL", "HIGH", 1, "r"⟩⟩

end CryptoOracle
